import Mathlib

/-!
Verification of the `proxmox-stats-to-mqtt` collector.

This file gives a shallow embedding of `src/proxmox-stats-to-mqtt.py` and
proves / refutes the frozen claims about it.

Modelling conventions:
 * Python numbers coming from the Proxmox JSON API are modelled as `ℚ`
   (the script mixes ints and floats; exact rational arithmetic stands in
   for IEEE floats, none of the verified statements depends on float
   rounding artifacts).
 * Python `round(x, n)` uses round-half-to-even; `pyRound` mirrors that.
 * Fallible Python evaluation (division by zero, subscripting `None`,
   SSH connection failures) is modelled with `Except PyErr`.
 * External collaborators (wall clock, `datetime` ISO rendering,
   `os.getenv`, the `df`-over-SSH session) are oracle parameters in `Ctx`;
   the MQTT client is modelled by returning the list of messages that
   would be published.
 * `dict.get(k, 0)` fields are `Option ℚ` with the default applied at the
   use site, mirroring the script; fields the script indexes directly
   (`node_status["memory"]["total"]`) are plain fields.
-/

/- The Batteries `Rat` operations are `@[irreducible]`, which blocks the
`decide`/`rfl` evaluation used by the concrete witnesses below. -/
attribute [local semireducible] Rat.mul Rat.add Rat.sub Rat.inv

/-! ## Python semantics helpers -/

/-- Errors a run of the script can raise. -/
inductive PyErr where
  | zeroDivisionError
  | sshConnectError
  | typeError
  | indexError
deriving DecidableEq

/-- Python `/` on numbers: raises `ZeroDivisionError` on a zero denominator. -/
def pyDiv (a b : ℚ) : Except PyErr ℚ :=
  if b = 0 then .error .zeroDivisionError else .ok (a / b)

/-- Python `round` to an integer: round half to even. -/
def pyRoundInt (q : ℚ) : Int :=
  let f := Rat.floor q
  if q - f < 1/2 then f
  else if q - f > 1/2 then f + 1
  else if f % 2 = 0 then f else f + 1

/-- Python `round(q, nd)` for `nd` decimal digits. -/
def pyRound (nd : Nat) (q : ℚ) : ℚ := (pyRoundInt (q * 10 ^ nd) : ℚ) / 10 ^ nd

/-- Python `int()` on a number: truncation toward zero. -/
def pyInt (q : ℚ) : Int := if q < 0 then Rat.ceil q else Rat.floor q

/-- Python `math.ceil` on a number. -/
def pyCeil (q : ℚ) : Int := Rat.ceil q

/-- Truthiness of an optional Python string (`None` and `""` are falsy). -/
def pyTruthyStr : Option String → Bool
  | none => false
  | some s => s ≠ ""

/-- Python `str.replace(a, b)` for single characters. -/
def pyReplace (s : String) (a b : Char) : String :=
  ⟨s.data.map (fun c => if c = a then b else c)⟩

/-- Helper for `str.title()`: the boolean records whether the previous
character was a cased (here: alphabetic) one. -/
def titleAux : Bool → List Char → List Char
  | _, [] => []
  | prevAlpha, c :: cs =>
    if c.isAlpha then (if prevAlpha then c.toLower else c.toUpper) :: titleAux true cs
    else c :: titleAux false cs

/-- Python `str.title()` (ASCII fragment). -/
def pyTitle (s : String) : String := ⟨titleAux false s.data⟩

/-- Python `str.strip()` (whitespace on both ends). -/
def pyStrip (s : String) : String :=
  ⟨((s.data.dropWhile Char.isWhitespace).reverse.dropWhile Char.isWhitespace).reverse⟩

/-- Python `str.rstrip(c)` for a single character. -/
def pyRstrip (s : String) (c : Char) : String :=
  ⟨(s.data.reverse.dropWhile (· = c)).reverse⟩

/-- Decimal digit list of a natural number, fuel-indexed so that it
reduces by `rfl`/`decide` (the fuel is an upper bound on the number). -/
def natCharsFuel : Nat → Nat → List Char
  | 0, _ => []
  | fuel + 1, n =>
    if n < 10 then [Nat.digitChar n]
    else natCharsFuel fuel (n / 10) ++ [Nat.digitChar (n % 10)]

/-- Decimal digit list of a natural number (rendering of a Python int). -/
def natChars (n : Nat) : List Char := natCharsFuel (n + 1) n

/-- Python `f"{n}"` for a nonnegative int. -/
def natStr (n : Nat) : String := ⟨natChars n⟩

/-! ## Data model -/

/-- A published metric value: number or string. -/
inductive Value where
  | num : ℚ → Value
  | str : String → Value
deriving DecidableEq

/-- `qemu` (virtual machine) or `lxc` (container). -/
inductive VmType where
  | qemu
  | lxc
deriving DecidableEq

/-- The string the script uses for a VM type (the `type` field added in
`get_all_vms`). -/
def vmTypeStr : VmType → String
  | .qemu => "qemu"
  | .lxc => "lxc"

/-- One device's result dict, as built by `get_vm_stats` / `get_nas_stats`.
The source's `state_topic_prefix` key is named `state_topic_root` here. -/
structure MetricSet where
  friendly_name : String
  device_id : String
  device_model : String
  state_topic_root : String
  stats : List (String × Value)
deriving DecidableEq

/-- The host result dict from `get_host_stats`: a `MetricSet` plus the two
pass-back totals `total_host_mem` / `total_host_cpus`. -/
structure HostEntry where
  device_id : String
  device_model : String
  friendly_name : String
  total_host_mem : ℚ
  total_host_cpus : ℚ
  state_topic_root : String
  stats : List (String × Value)
deriving DecidableEq

/-- `/nodes/<node>/status` fields used by `get_host_stats`. The script
indexes `memory`, `rootfs` and `cpuinfo` directly (a missing field would
raise) but uses `.get("uptime", 0)`. -/
structure NodeStatus where
  memory_total : ℚ
  memory_used : ℚ
  rootfs_total : ℚ
  rootfs_used : ℚ
  cpuinfo_cpus : ℚ
  uptime : Option ℚ

/-- A row of `get_all_vms` output: the list-level summary record with the
added `type` tag. Only the fields the script reads are modelled; both are
read with `.get(..., 0)`. -/
structure VmListEntry where
  vmid : Nat
  vm_type : VmType
  maxmem : Option ℚ
  cpus : Option ℚ

/-- `/nodes/<node>/<type>/<vmid>/status/current` fields used by
`get_vm_stats`; all are read with `.get`. -/
structure VmStatus where
  name : Option String
  maxmem : Option ℚ
  mem : Option ℚ
  cpus : Option ℚ
  cpu : Option ℚ
  maxdisk : Option ℚ
  disk : Option ℚ
  uptime : Option ℚ

/-- A row of `/nodes/<node>/storage`; all fields are read with `.get`. -/
structure StorageEntry where
  storage : Option String
  total : Option ℚ
  used : Option ℚ
  used_fraction : Option ℚ

/-- The `stats` dict built by `collect_stats`. `nas` is `Option` because
`get_nas_stats` returns `None` when the volume is absent. -/
structure Stats where
  host : List HostEntry
  vms : List MetricSet
  nas : Option (List MetricSet)

/-- External collaborators and configuration threaded through the run.
`mqtt_topic_root` is the source's `MQTT_TOPIC_PREFIX` environment value. -/
structure Ctx where
  mqtt_topic_root : String
  now : Int
  isoUtc : Int → String
  env : String → Option String
  sshExec : String → String → String → String

/-! ## Unit conversions (source lines 66-69) -/

def bytes_to_mib (num_bytes : ℚ) : ℚ := num_bytes / (1024 * 1024)
def bytes_to_gib (num_bytes : ℚ) : ℚ := num_bytes / (1024 * 1024 * 1024)
def bytes_to_gb (num_bytes : ℚ) : ℚ := num_bytes / (1000 * 1000 * 1000)
def bytes_to_tb (num_bytes : ℚ) : ℚ := num_bytes / (1000 * 1000 * 1000 * 1000)

/-! ## Naming formatter (source lines 89-100) -/

/-- `get_friendly_name(vmid, name, vm_type)`. `name or f"{vm_type} {vmid}"`
takes the default when `name` is `None` or empty. -/
def get_friendly_name (vmid : Nat) (name : Option String) (vm_type : VmType) : String :=
  let friendly_name :=
    match name with
    | some s => if s ≠ "" then s else vmTypeStr vm_type ++ " " ++ natStr vmid
    | none => vmTypeStr vm_type ++ " " ++ natStr vmid
  pyTitle (pyReplace (pyReplace friendly_name '_' ' ') '-' ' ') ++ " " ++
    (if vm_type = .qemu then "VM" else "LXC")

/-! ## SSH disk-usage fallback (source lines 120-139) -/

/-- `get_vm_disk_usage(ssh_host, ssh_username, ssh_key_path)`.
The paramiko session is an external collaborator: it is modelled as
failing to connect unless the whole host/username/key-path triple is
present (in particular `ssh.connect(None, ...)` raises), and otherwise
returning the `df` pipeline's stdout via the `sshExec` oracle, to which
the script applies `.strip().rstrip('%')`. -/
def get_vm_disk_usage (ctx : Ctx)
    (ssh_host ssh_username ssh_key_path : Option String) : Except PyErr String :=
  match ssh_host, ssh_username, ssh_key_path with
  | some h, some u, some k => .ok (pyRstrip (pyStrip (ctx.sshExec h u k)) '%')
  | _, _, _ => .error .sshConnectError

/-! ## Host collector (source lines 142-213) -/

/-- `get_host_stats(vms)`. The two percentage entries divide without a
zero guard, so the division is sequenced through `pyDiv`; everything else
in the dict literal is pure, and the (unused) `unallocated_mem`
computation is omitted. -/
def get_host_stats (ctx : Ctx) (node_status : NodeStatus) (vms : List VmListEntry) :
    Except PyErr (List HostEntry) :=
  let total_host_mem := node_status.memory_total
  let used_mem := node_status.memory_used
  let total_disk := node_status.rootfs_total
  let used_disk := node_status.rootfs_used
  let total_cpus := node_status.cpuinfo_cpus
  let vm_allocated_cpus := (vms.map (fun vm => vm.cpus.getD 0)).sum
  let unallocated_cpus := total_cpus - vm_allocated_cpus
  let uptime_seconds := node_status.uptime.getD 0
  let last_boot_time := ctx.now - pyInt uptime_seconds
  let last_boot_time_iso := ctx.isoUtc last_boot_time
  match pyDiv used_mem total_host_mem with
  | .error e => .error e
  | .ok mem_ratio =>
    match pyDiv used_disk total_disk with
    | .error e => .error e
    | .ok disk_ratio =>
      .ok [{
        device_id := "proxmox_host"
        device_model := "Proxmox Host"
        friendly_name := "Proxmox Host"
        total_host_mem := total_host_mem
        total_host_cpus := total_cpus
        state_topic_root := ctx.mqtt_topic_root ++ "/proxmox_host"
        stats := [
          ("proxmox_host_disk_size_gb", Value.num (pyCeil (bytes_to_gib total_disk) : ℚ)),
          ("proxmox_host_total_cpus", Value.num total_cpus),
          ("proxmox_host_unallocated_cpus", Value.num unallocated_cpus),
          ("proxmox_host_memory_used_percent", Value.num (pyRound 2 (mem_ratio * 100))),
          ("proxmox_host_disk_used_percent", Value.num (pyRound 2 (disk_ratio * 100))),
          ("proxmox_host_last_boot_time", Value.str last_boot_time_iso)
        ] }]

/-! ## VM / container collector (source lines 216-275) -/

/-- `get_vm_stats(proxmox_node, vmid, vm_type, total_host_mem,
total_host_cpus)`; `vm_status` is the per-instance status record the
function fetches. The source's `sensor_key_prefix` local is named
`sensor_key_root` here. -/
def get_vm_stats (ctx : Ctx) (vmid : Nat) (vm_type : VmType) (vm_status : VmStatus)
    (total_host_mem total_host_cpus : ℚ) : Except PyErr MetricSet :=
  let sensor_key_root := "proxmox_" ++ vmTypeStr vm_type ++ "_" ++ natStr vmid
  let mem_alloc := vm_status.maxmem.getD 0
  let mem_used := vm_status.mem.getD 0
  let cpus := vm_status.cpus.getD 0
  let cpu_fraction := vm_status.cpu.getD 0
  let disk_alloc_gb := pyCeil (bytes_to_gib (vm_status.maxdisk.getD 0))
  let uptime_seconds := vm_status.uptime.getD 0
  let last_boot_time := ctx.now - pyInt uptime_seconds
  let last_boot_time_iso := ctx.isoUtc last_boot_time
  let disk_used :=
    match vm_type with
    | .qemu =>
      Except.map Value.str (get_vm_disk_usage ctx
        (ctx.env ("SSH_HOST_QEMU_" ++ natStr vmid))
        (ctx.env ("SSH_USERNAME_QEMU_" ++ natStr vmid))
        (ctx.env ("SSH_KEY_PATH_QEMU_" ++ natStr vmid)))
    | .lxc =>
      let disk_used_gb := pyCeil (bytes_to_gib (vm_status.disk.getD 0))
      .ok (Value.num (if disk_alloc_gb ≠ 0
        then pyRound 2 ((disk_used_gb : ℚ) / (disk_alloc_gb : ℚ) * 100) else 0))
  match disk_used with
  | .error e => .error e
  | .ok vm_disk_used_percent =>
    .ok {
      friendly_name := get_friendly_name vmid vm_status.name vm_type
      device_id := sensor_key_root
      device_model := if vm_type = .qemu then "VM" else "LXC"
      state_topic_root :=
        ctx.mqtt_topic_root ++ "/proxmox_" ++ vmTypeStr vm_type ++ "/" ++ natStr vmid
      stats := [
        (sensor_key_root ++ "_last_boot_time", Value.str last_boot_time_iso),
        (sensor_key_root ++ "_memory_used_percent",
          Value.num (if mem_alloc ≠ 0 then pyRound 2 (mem_used / mem_alloc * 100) else 0)),
        (sensor_key_root ++ "_disk_used_percent", vm_disk_used_percent),
        (sensor_key_root ++ "_percent_of_host_memory",
          Value.num (if total_host_mem ≠ 0
            then pyRound 2 (mem_used / total_host_mem * 100) else 0)),
        (sensor_key_root ++ "_percent_of_host_cpu",
          Value.num (if total_host_cpus ≠ 0
            then pyRound 2 (cpu_fraction / total_host_cpus * 100) else 0)),
        (sensor_key_root ++ "_cpus", Value.num cpus),
        (sensor_key_root ++ "_memory_allocated_mb", Value.num (pyInt (bytes_to_mib mem_alloc) : ℚ)),
        (sensor_key_root ++ "_disk_allocated_gb", Value.num (pyRound 2 (disk_alloc_gb : ℚ)))
      ] }

/-! ## NAS collector (source lines 278-302) -/

/-- `get_nas_stats(storage_data, storage_name)`: first entry whose
`storage` field equals the configured name, else `None`. -/
def get_nas_stats (ctx : Ctx) (storage_data : List StorageEntry) (storage_name : String) :
    Option (List MetricSet) :=
  match storage_data.find? (fun s => s.storage == some storage_name) with
  | some storage =>
    some [{
      friendly_name := "NAS"
      device_id := "proxmox_nas"
      device_model := "NAS"
      state_topic_root := ctx.mqtt_topic_root ++ "/proxmox_nas"
      stats := [
        ("proxmox_nas_disk_size_tb", Value.num (pyRound 2 (bytes_to_tb (storage.total.getD 0)))),
        ("proxmox_nas_disk_used_gb", Value.num (pyRound 2 (bytes_to_gb (storage.used.getD 0)))),
        ("proxmox_nas_disk_used_percent",
          Value.num (pyRound 1 (storage.used_fraction.getD 0 * 100)))
      ] }]
  | none => none

/-! ## Cycle assembly (source lines 305-322) -/

/-- The `for vm in vms` loop of `collect_stats`: one `get_vm_stats` call
per row, in order, aborting on the first raised error. `statusOf` is the
API oracle for each per-instance status fetch. -/
def collect_vm_stats (ctx : Ctx) (statusOf : VmType → Nat → VmStatus)
    (total_host_mem total_host_cpus : ℚ) : List VmListEntry → Except PyErr (List MetricSet)
  | [] => .ok []
  | vm :: rest =>
    match get_vm_stats ctx vm.vmid vm.vm_type (statusOf vm.vm_type vm.vmid)
        total_host_mem total_host_cpus with
    | .error e => .error e
    | .ok ms =>
      match collect_vm_stats ctx statusOf total_host_mem total_host_cpus rest with
      | .error e => .error e
      | .ok l => .ok (ms :: l)

/-- `collect_stats()`: host stats, then the NAS lookup, then the per-VM
loop reading `stats["host"][0]` (an empty host list would raise). -/
def collect_stats (ctx : Ctx) (nas_storage_name : String) (node_status : NodeStatus)
    (all_vms : List VmListEntry) (statusOf : VmType → Nat → VmStatus)
    (storage_data : List StorageEntry) : Except PyErr Stats :=
  match get_host_stats ctx node_status all_vms with
  | .error e => .error e
  | .ok host =>
    let nas := get_nas_stats ctx storage_data nas_storage_name
    match host with
    | [] => .error .indexError
    | h0 :: _ =>
      match collect_vm_stats ctx statusOf h0.total_host_mem h0.total_host_cpus all_vms with
      | .error e => .error e
      | .ok vms => .ok { host := host, vms := vms, nas := nas }

/-! ## Metric publisher (source lines 325-342) -/

/-- Messages published for one device: `state_topic_prefix + '/' + key`. -/
def devicePublishes (root : String) (stats : List (String × Value)) : List (String × Value) :=
  stats.map (fun kv => (root ++ "/" ++ kv.1, kv.2))

/-- `publish_all_stats_to_mqtt(stats)`: iterates the categories in dict
insertion order (host, vms, nas) and publishes every stat retained.
When `stats["nas"]` is `None`, the `for device in devices` iteration
raises `TypeError`. The result is the list of (topic, payload) messages
of a completed run. -/
def publish_all_stats_to_mqtt (stats : Stats) : Except PyErr (List (String × Value)) :=
  let hostMsgs := stats.host.flatMap (fun d => devicePublishes d.state_topic_root d.stats)
  let vmMsgs := stats.vms.flatMap (fun d => devicePublishes d.state_topic_root d.stats)
  match stats.nas with
  | none => .error .typeError
  | some nasDevices =>
    .ok (hostMsgs ++ vmMsgs ++ nasDevices.flatMap (fun d => devicePublishes d.state_topic_root d.stats))

/-! ## Discovery emitter (source lines 345-426) -/

/-- The device identity block of a discovery payload. -/
structure DeviceInfo where
  identifiers : List String
  manufacturer : String
  model : String
  name : String
deriving DecidableEq

/-- A Home Assistant discovery payload; optional fields model keys that
may be absent from the JSON object. -/
structure DiscoveryPayload where
  name : String
  state_topic : String
  unique_id : String
  object_id : String
  device : DeviceInfo
  unit_of_measurement : Option String
  device_class : Option String
  state_class : Option String
  icon : Option String
deriving DecidableEq

/-- The payload assembled by `publish_discovery_message` (lines 352-370):
`state_class = "measurement"` is set unless a truthy `device_class`
equals `"timestamp"`. -/
def build_discovery_payload (sensor_key name state_topic : String) (device_info : DeviceInfo)
    (unit device_class icon : Option String) : DiscoveryPayload :=
  let base : DiscoveryPayload := {
    name := name
    state_topic := state_topic
    unique_id := sensor_key
    object_id := sensor_key
    device := device_info
    unit_of_measurement := unit
    device_class := none
    state_class := none
    icon := none }
  let withClass :=
    if pyTruthyStr device_class then
      { base with
        device_class := device_class
        state_class := if device_class ≠ some "timestamp" then some "measurement" else none }
    else { base with state_class := some "measurement" }
  if pyTruthyStr icon then { withClass with icon := icon } else withClass

/-- One entry of the static sensor catalog (lines 384-404). -/
structure SensorDefinition where
  sensor_key : String
  friendly_name : String
  unit : Option String
  device_class : Option String
  icon : Option String

/-- The static sensor-definition catalog of
`publish_sensor_discovery_by_device`. -/
def sensor_definitions : List SensorDefinition := [
  { sensor_key := "memory_used_percent", friendly_name := "Memory Used", unit := some "%",
    device_class := none, icon := some "mdi:memory" },
  { sensor_key := "disk_used_percent", friendly_name := "Disk Used", unit := some "%",
    device_class := none, icon := some "mdi:harddisk" },
  { sensor_key := "last_boot_time", friendly_name := "Last Boot Time", unit := none,
    device_class := some "timestamp", icon := some "mdi:clock-outline" },
  { sensor_key := "disk_size_gb", friendly_name := "Disk Size", unit := some "GB",
    device_class := some "data_size", icon := some "mdi:harddisk" },
  { sensor_key := "unallocated_cpus", friendly_name := "Unallocated CPUs", unit := none,
    device_class := none, icon := some "mdi:cpu-64-bit" },
  { sensor_key := "percent_of_host_memory", friendly_name := "% of Host Memory", unit := some "%",
    device_class := none, icon := some "mdi:memory" },
  { sensor_key := "percent_of_host_cpu", friendly_name := "% of Host CPU", unit := some "%",
    device_class := none, icon := some "mdi:cpu-64-bit" },
  { sensor_key := "cpus", friendly_name := "CPUs", unit := some "",
    device_class := none, icon := some "mdi:cpu-64-bit" },
  { sensor_key := "memory_allocated_mb", friendly_name := "Memory Allocated", unit := some "MB",
    device_class := some "data_size", icon := some "mdi:memory" },
  { sensor_key := "disk_allocated_gb", friendly_name := "Disk Allocated", unit := some "GB",
    device_class := some "data_size", icon := some "mdi:harddisk" },
  { sensor_key := "disk_size_tb", friendly_name := "Disk Size", unit := some "TB",
    device_class := some "data_size", icon := some "mdi:harddisk" },
  { sensor_key := "disk_used_gb", friendly_name := "Disk Used", unit := some "GB",
    device_class := some "data_size", icon := some "mdi:harddisk" }
]

/-- Python `sensor_key.endswith(sfx)`. -/
def endswith (key sfx : String) : Bool := decide (sfx.data <:+ key.data)

/-- Number of catalog entries whose `sensor_key` suffix-matches a metric
key (the lookup at line 415 takes the first of these). -/
def matchCount (key : String) : Nat :=
  (sensor_definitions.filter (fun s => endswith key s.sensor_key)).length

/-- `device_class=sensor_definition["device_class"] if ... and ... != "none" else None`
(line 424). -/
def normalize_device_class : Option String → Option String
  | none => none
  | some s => if s ≠ "" ∧ s.toLower ≠ "none" then some s else none

/-- `publish_sensor_discovery_by_device(...)` (lines 380-426): the list of
(discovery topic, payload) pairs; a miss of the catalog lookup subscripts
`None` and raises `TypeError`. `discovery_root` is the source's
`MQTT_DISCOVERY_TOPIC` environment value. -/
def publish_sensor_discovery_by_device (discovery_root device_id device_model
    device_friendly_name state_topic_root : String) (device_stats : List (String × Value)) :
    Except PyErr (List (String × DiscoveryPayload)) :=
  let device_info : DeviceInfo := {
    identifiers := [device_id]
    manufacturer := "Proxmox"
    model := device_model
    name := device_friendly_name }
  device_stats.mapM (fun kv =>
    match sensor_definitions.find? (fun s => endswith kv.1 s.sensor_key) with
    | none => .error .typeError
    | some sd =>
      .ok (discovery_root ++ "/" ++ kv.1 ++ "/config",
        build_discovery_payload kv.1 sd.friendly_name (state_topic_root ++ "/" ++ kv.1)
          device_info sd.unit (normalize_device_class sd.device_class) sd.icon))

/-! ## Key inventories (derived from the collectors; the lemmas below
prove they are exactly the keys the collectors emit) -/

/-- The six host metric keys. -/
def hostKeyList : List String := [
  "proxmox_host_disk_size_gb",
  "proxmox_host_total_cpus",
  "proxmox_host_unallocated_cpus",
  "proxmox_host_memory_used_percent",
  "proxmox_host_disk_used_percent",
  "proxmox_host_last_boot_time"]

/-- The per-VM metric name suffixes, in emission order. -/
def vmStatSuffixes : List String := [
  "_last_boot_time",
  "_memory_used_percent",
  "_disk_used_percent",
  "_percent_of_host_memory",
  "_percent_of_host_cpu",
  "_cpus",
  "_memory_allocated_mb",
  "_disk_allocated_gb"]

/-- The `sensor_key_prefix` of a VM/container. -/
def vmKeyRoot (t : VmType) (vmid : Nat) : String :=
  "proxmox_" ++ vmTypeStr t ++ "_" ++ natStr vmid

/-- The metric keys of one VM/container. -/
def vmKeyList (t : VmType) (vmid : Nat) : List String :=
  vmStatSuffixes.map (fun sfx => vmKeyRoot t vmid ++ sfx)

/-- The three NAS metric keys. -/
def nasKeyList : List String := [
  "proxmox_nas_disk_size_tb",
  "proxmox_nas_disk_used_gb",
  "proxmox_nas_disk_used_percent"]

/-- All metric keys of a collected cycle, in publish order. -/
def statsKeys (s : Stats) : List String :=
  s.host.flatMap (fun h => h.stats.map Prod.fst) ++
  s.vms.flatMap (fun m => m.stats.map Prod.fst) ++
  (match s.nas with
   | some l => l.flatMap (fun m => m.stats.map Prod.fst)
   | none => [])

/-! ## Digit-string lemmas -/

/-- The ten decimal digit characters. -/
def digitChars : List Char := ['0', '1', '2', '3', '4', '5', '6', '7', '8', '9']

lemma digitChar_mem_digitChars {n : Nat} (h : n < 10) : Nat.digitChar n ∈ digitChars := by
  interval_cases n <;> decide

lemma digitChar_toNat {n : Nat} (h : n < 10) : (Nat.digitChar n).toNat = 48 + n := by
  interval_cases n <;> decide

/-- Value of a digit list, most significant first. -/
def digitsVal (l : List Char) : Nat := l.foldl (fun a c => 10 * a + (c.toNat - 48)) 0

lemma digitsVal_append_singleton (l : List Char) (c : Char) :
    digitsVal (l ++ [c]) = 10 * digitsVal l + (c.toNat - 48) := by
  simp [digitsVal, List.foldl_append]

lemma natCharsFuel_spec :
    ∀ fuel n, n < fuel →
      digitsVal (natCharsFuel fuel n) = n ∧ natCharsFuel fuel n ≠ [] ∧
        ∀ c ∈ natCharsFuel fuel n, c ∈ digitChars := by
  intro fuel
  induction fuel with
  | zero => intro n hn; omega
  | succ fuel ih =>
    intro n hn
    by_cases h10 : n < 10
    · refine ⟨?_, ?_, ?_⟩ <;> simp only [natCharsFuel, if_pos h10]
      · simp [digitsVal, digitChar_toNat h10]
      · simp
      · intro c hc
        simp only [List.mem_singleton] at hc
        subst hc
        exact digitChar_mem_digitChars h10
    · have hpos : 0 < n := by omega
      have hlt : n / 10 < n := Nat.div_lt_self hpos (by omega)
      have hdiv : n / 10 < fuel := by omega
      obtain ⟨hval, -, hmem⟩ := ih (n / 10) hdiv
      refine ⟨?_, ?_, ?_⟩ <;> simp only [natCharsFuel, if_neg h10]
      · rw [digitsVal_append_singleton, hval, digitChar_toNat (Nat.mod_lt n (by omega))]
        omega
      · simp
      · intro c hc
        rcases List.mem_append.1 hc with h | h
        · exact hmem c h
        · simp only [List.mem_singleton] at h
          subst h
          exact digitChar_mem_digitChars (Nat.mod_lt n (by omega))

lemma natChars_val (n : Nat) : digitsVal (natChars n) = n :=
  (natCharsFuel_spec (n + 1) n (by omega)).1

lemma natChars_ne_nil (n : Nat) : natChars n ≠ [] :=
  (natCharsFuel_spec (n + 1) n (by omega)).2.1

lemma natChars_digits {n : Nat} {c : Char} (h : c ∈ natChars n) : c ∈ digitChars :=
  (natCharsFuel_spec (n + 1) n (by omega)).2.2 c h

lemma natChars_inj {m n : Nat} (h : natChars m = natChars n) : m = n := by
  have hm := natChars_val m
  rw [h, natChars_val] at hm
  omega

lemma natChars_no_underscore {n : Nat} {c : Char} (h : c ∈ natChars n) : c ≠ '_' := by
  intro hc
  subst hc
  exact absurd (natChars_digits h) (by decide)

lemma natChars_getLast_digit {n : Nat} {c : Char} (h : (natChars n).getLast? = some c) :
    c ∈ digitChars := by
  obtain ⟨hne, rfl⟩ := List.mem_getLast?_eq_getLast (show c ∈ (natChars n).getLast? from h)
  exact natChars_digits (List.getLast_mem hne)

/-! ## String and separator lemmas -/

lemma str_data_inj {s t : String} (h : s.data = t.data) : s = t := String.ext h

lemma strApp_data (s t : String) : (s ++ t).data = s.data ++ t.data := String.data_append s t

lemma strApp_left_cancel {r a b : String} (h : r ++ a = r ++ b) : a = b := by
  apply str_data_inj
  have := congrArg String.data h
  rw [strApp_data, strApp_data] at this
  exact List.append_cancel_left this

/-- Lists over a separator-free alphabet concatenated with `'_' :: tail`
decompose uniquely. -/
lemma append_sep_inj :
    ∀ (a : List Char) {b x y : List Char}, (∀ c ∈ a, c ≠ '_') → (∀ c ∈ b, c ≠ '_') →
      a ++ '_' :: x = b ++ '_' :: y → a = b ∧ x = y := by
  intro a
  induction a with
  | nil =>
    intro b x y _ hb h
    cases b with
    | nil => simpa using h
    | cons d ds =>
      simp only [List.nil_append, List.cons_append, List.cons.injEq] at h
      exact absurd h.1.symm (hb d (by simp))
  | cons c cs ih =>
    intro b x y ha hb h
    cases b with
    | nil =>
      simp only [List.cons_append, List.nil_append, List.cons.injEq] at h
      exact absurd h.1 (ha c (by simp))
    | cons d ds =>
      simp only [List.cons_append, List.cons.injEq] at h
      obtain ⟨rfl, h2⟩ := h
      obtain ⟨rfl, rfl⟩ := ih (fun e he => ha e (by simp [he])) (fun e he => hb e (by simp [he])) h2
      exact ⟨rfl, rfl⟩

/-! ## VM metric key structure -/

/-- The character list of the per-type fixed key preamble `proxmox_<type>_`. -/
def typePfx (t : VmType) : List Char := ("proxmox_" ++ vmTypeStr t ++ "_").data

lemma vmKey_data (t : VmType) (vmid : Nat) (sfx : String) :
    (vmKeyRoot t vmid ++ sfx).data = typePfx t ++ (natChars vmid ++ sfx.data) := by
  cases t <;>
    simp [vmKeyRoot, typePfx, vmTypeStr, natStr, strApp_data]

lemma vmKey_inj {t₁ t₂ : VmType} {i₁ i₂ : Nat} {x y : List Char}
    (h : typePfx t₁ ++ (natChars i₁ ++ '_' :: x) = typePfx t₂ ++ (natChars i₂ ++ '_' :: y)) :
    t₁ = t₂ ∧ i₁ = i₂ ∧ x = y := by
  cases t₁ <;> cases t₂ <;> simp only [typePfx, vmTypeStr] at h
  case qemu.qemu =>
    have h' : natChars i₁ ++ '_' :: x = natChars i₂ ++ '_' :: y := by simpa using h
    obtain ⟨hd, hx⟩ := append_sep_inj (natChars i₁)
      (fun c hc => natChars_no_underscore hc) (fun c hc => natChars_no_underscore hc) h'
    exact ⟨rfl, natChars_inj hd, hx⟩
  case qemu.lxc => simp at h
  case lxc.qemu => simp at h
  case lxc.lxc =>
    have h' : natChars i₁ ++ '_' :: x = natChars i₂ ++ '_' :: y := by simpa using h
    obtain ⟨hd, hx⟩ := append_sep_inj (natChars i₁)
      (fun c hc => natChars_no_underscore hc) (fun c hc => natChars_no_underscore hc) h'
    exact ⟨rfl, natChars_inj hd, hx⟩

/-- The 9th character of a metric key classifies its resource group
('h' host, 'q'/'l' VM or container, 'n' NAS). -/
def vmTypeChar : VmType → Char
  | .qemu => 'q'
  | .lxc => 'l'

lemma vmKey_tag (t : VmType) (vmid : Nat) (sfx : String) :
    (vmKeyRoot t vmid ++ sfx).data[8]? = some (vmTypeChar t) := by
  rw [vmKey_data]
  cases t <;> rfl

lemma hostKey_tag : ∀ k ∈ hostKeyList, k.data[8]? = some 'h' := by decide

lemma nasKey_tag : ∀ k ∈ nasKeyList, k.data[8]? = some 'n' := by decide

lemma vmKeyList_mem {t : VmType} {vmid : Nat} {k : String} (h : k ∈ vmKeyList t vmid) :
    ∃ sfx ∈ vmStatSuffixes, k = vmKeyRoot t vmid ++ sfx := by
  obtain ⟨sfx, hs, rfl⟩ := List.mem_map.1 h
  exact ⟨sfx, hs, rfl⟩

lemma vmStatSuffix_shape {sfx : String} (h : sfx ∈ vmStatSuffixes) :
    ∃ r, sfx.data = '_' :: r := by
  fin_cases h <;> exact ⟨_, rfl⟩

lemma vmKeyList_nodup (t : VmType) (vmid : Nat) : (vmKeyList t vmid).Nodup :=
  (List.nodup_map_iff_inj_on (by decide)).2
    (fun _ _ _ _ h => strApp_left_cancel h)

lemma vmKeyList_disjoint {t₁ t₂ : VmType} {i₁ i₂ : Nat} (hne : (t₁, i₁) ≠ (t₂, i₂)) :
    List.Disjoint (vmKeyList t₁ i₁) (vmKeyList t₂ i₂) := by
  intro k h₁ h₂
  obtain ⟨s₁, hs₁, rfl⟩ := vmKeyList_mem h₁
  obtain ⟨s₂, hs₂, heq⟩ := vmKeyList_mem h₂
  obtain ⟨r₁, hr₁⟩ := vmStatSuffix_shape hs₁
  obtain ⟨r₂, hr₂⟩ := vmStatSuffix_shape hs₂
  have hd := congrArg String.data heq
  rw [vmKey_data, vmKey_data, hr₁, hr₂] at hd
  obtain ⟨ht, hi, -⟩ := vmKey_inj hd
  exact hne (by rw [ht, hi])

lemma mem_vmKeyList_tag {t : VmType} {i : Nat} {k : String} (h : k ∈ vmKeyList t i) :
    k.data[8]? = some (vmTypeChar t) := by
  obtain ⟨sfx, -, rfl⟩ := vmKeyList_mem h
  exact vmKey_tag ..

lemma cycle_keys_nodup (vms : List (VmType × Nat)) (hdist : vms.Pairwise (· ≠ ·)) :
    (hostKeyList ++ ((vms.flatMap fun p => vmKeyList p.1 p.2) ++ nasKeyList)).Nodup := by
  have hvm : (vms.flatMap fun p => vmKeyList p.1 p.2).Nodup := by
    refine List.nodup_flatMap.2 ⟨fun p _ => vmKeyList_nodup p.1 p.2, ?_⟩
    refine hdist.imp ?_
    intro a b hne
    exact vmKeyList_disjoint (fun hpair => hne (by
      obtain ⟨t₁, i₁⟩ := a; obtain ⟨t₂, i₂⟩ := b; exact hpair))
  have hvm_nas : List.Disjoint (vms.flatMap fun p => vmKeyList p.1 p.2) nasKeyList := by
    intro k hk hn
    obtain ⟨⟨t, i⟩, -, hkv⟩ := List.mem_flatMap.1 hk
    have h1 := mem_vmKeyList_tag hkv
    have h2 := nasKey_tag k hn
    rw [h1] at h2
    cases t <;> simp [vmTypeChar] at h2
  have hhost_rest : List.Disjoint hostKeyList
      ((vms.flatMap fun p => vmKeyList p.1 p.2) ++ nasKeyList) := by
    intro k hk hr
    have h2 := hostKey_tag k hk
    rcases List.mem_append.1 hr with h | h
    · obtain ⟨⟨t, i⟩, -, hkv⟩ := List.mem_flatMap.1 h
      have h1 := mem_vmKeyList_tag hkv
      rw [h1] at h2
      cases t <;> simp [vmTypeChar] at h2
    · have h1 := nasKey_tag k h
      rw [h1] at h2
      simp at h2
  refine List.nodup_append.2 ⟨by decide, List.nodup_append.2 ⟨hvm, by decide, hvm_nas⟩, hhost_rest⟩

/-! ## Collector output shapes -/

lemma get_vm_stats_keys {ctx : Ctx} {vmid : Nat} {t : VmType} {st : VmStatus} {tm tc : ℚ}
    {ms : MetricSet} (h : get_vm_stats ctx vmid t st tm tc = .ok ms) :
    ms.stats.map Prod.fst = vmKeyList t vmid := by
  cases t with
  | qemu =>
    rcases hq : get_vm_disk_usage ctx (ctx.env ("SSH_HOST_QEMU_" ++ natStr vmid))
        (ctx.env ("SSH_USERNAME_QEMU_" ++ natStr vmid))
        (ctx.env ("SSH_KEY_PATH_QEMU_" ++ natStr vmid)) with e | sres
    · simp only [get_vm_stats, hq, Except.map] at h
      exact absurd h (by simp)
    · simp only [get_vm_stats, hq, Except.map] at h
      obtain rfl := Except.ok.inj h.symm
      simp [vmKeyList, vmStatSuffixes, vmKeyRoot]
  | lxc =>
    simp only [get_vm_stats] at h
    obtain rfl := Except.ok.inj h.symm
    simp [vmKeyList, vmStatSuffixes, vmKeyRoot]

lemma get_host_stats_shape {ctx : Ctx} {ns : NodeStatus} {vms : List VmListEntry}
    {l : List HostEntry} (h : get_host_stats ctx ns vms = .ok l) :
    ∃ e, l = [e] ∧ e.stats.map Prod.fst = hostKeyList ∧
      e.total_host_mem = ns.memory_total ∧ e.total_host_cpus = ns.cpuinfo_cpus := by
  rcases h1 : pyDiv ns.memory_used ns.memory_total with e | mr
  · simp only [get_host_stats, h1] at h
    exact absurd h (by simp)
  · rcases h2 : pyDiv ns.rootfs_used ns.rootfs_total with e | dr
    · simp only [get_host_stats, h1, h2] at h
      exact absurd h (by simp)
    · simp only [get_host_stats, h1, h2] at h
      obtain rfl := Except.ok.inj h.symm
      exact ⟨_, rfl, by simp [hostKeyList], rfl, rfl⟩

lemma get_nas_stats_keys {ctx : Ctx} {sd : List StorageEntry} {name : String}
    {l : List MetricSet} (h : get_nas_stats ctx sd name = some l) :
    ∃ m, l = [m] ∧ m.stats.map Prod.fst = nasKeyList := by
  unfold get_nas_stats at h
  split at h
  · obtain rfl := Option.some.inj h
    exact ⟨_, rfl, by simp [nasKeyList]⟩
  · exact absurd h (by simp)

lemma collect_vm_stats_forall₂ {ctx : Ctx} {statusOf : VmType → Nat → VmStatus} {tm tc : ℚ} :
    ∀ {vms : List VmListEntry} {L : List MetricSet},
      collect_vm_stats ctx statusOf tm tc vms = .ok L →
      List.Forall₂ (fun (v : VmListEntry) (m : MetricSet) =>
        m.stats.map Prod.fst = vmKeyList v.vm_type v.vmid) vms L := by
  intro vms
  induction vms with
  | nil =>
    intro L h
    obtain rfl := Except.ok.inj h
    exact .nil
  | cons v rest ih =>
    intro L h
    unfold collect_vm_stats at h
    split at h
    · exact absurd h (by simp)
    next ms hms =>
      split at h
      · exact absurd h (by simp)
      next l hl =>
        obtain rfl := Except.ok.inj h
        exact .cons (get_vm_stats_keys hms) (ih hl)

lemma forall₂_flatMap_keys {all_vms : List VmListEntry} {L : List MetricSet}
    (h : List.Forall₂ (fun v m => m.stats.map Prod.fst = vmKeyList v.vm_type v.vmid) all_vms L) :
    L.flatMap (fun m => m.stats.map Prod.fst) =
      (all_vms.map (fun v => (v.vm_type, v.vmid))).flatMap (fun p => vmKeyList p.1 p.2) := by
  induction h with
  | nil => rfl
  | cons h₁ _ ih => simp [ih, h₁]

lemma collect_stats_shape {ctx : Ctx} {nas_name : String} {ns : NodeStatus}
    {all_vms : List VmListEntry} {statusOf : VmType → Nat → VmStatus}
    {sd : List StorageEntry} {s : Stats}
    (h : collect_stats ctx nas_name ns all_vms statusOf sd = .ok s) :
    (∃ e, s.host = [e] ∧ e.stats.map Prod.fst = hostKeyList) ∧
    List.Forall₂ (fun v m => m.stats.map Prod.fst = vmKeyList v.vm_type v.vmid) all_vms s.vms ∧
    s.nas = get_nas_stats ctx sd nas_name := by
  rcases hh : get_host_stats ctx ns all_vms with e | host
  · simp only [collect_stats, hh] at h
    exact absurd h (by simp)
  · obtain ⟨e0, rfl, hkeys, -, -⟩ := get_host_stats_shape hh
    rcases hv : collect_vm_stats ctx statusOf e0.total_host_mem e0.total_host_cpus all_vms
      with e | vmsl
    · simp only [collect_stats, hh, hv] at h
      exact absurd h (by simp)
    · simp only [collect_stats, hh, hv] at h
      obtain rfl := Except.ok.inj h.symm
      exact ⟨⟨e0, rfl, hkeys⟩, collect_vm_stats_forall₂ hv, rfl⟩

lemma collect_statsKeys {ctx : Ctx} {nas_name : String} {ns : NodeStatus}
    {all_vms : List VmListEntry} {statusOf : VmType → Nat → VmStatus}
    {sd : List StorageEntry} {s : Stats}
    (h : collect_stats ctx nas_name ns all_vms statusOf sd = .ok s) :
    statsKeys s = hostKeyList ++
      (((all_vms.map fun v => (v.vm_type, v.vmid)).flatMap fun p => vmKeyList p.1 p.2) ++
        (match get_nas_stats ctx sd nas_name with | some _ => nasKeyList | none => [])) := by
  obtain ⟨⟨e, he, hkeys⟩, hf, hnas⟩ := collect_stats_shape h
  unfold statsKeys
  rw [he, hnas, forall₂_flatMap_keys hf]
  cases hcase : get_nas_stats ctx sd nas_name with
  | none => simp [hkeys]
  | some l =>
    obtain ⟨m, rfl, hm⟩ := get_nas_stats_keys hcase
    simp [hkeys, hm]

/-! ## Suffix-match analysis for the discovery catalog -/

lemma suffix_getLast_eq {l₁ l₂ : List Char} (h : l₁ <:+ l₂) (hne : l₁ ≠ []) :
    l₁.getLast? = l₂.getLast? := by
  obtain ⟨u, rfl⟩ := h
  exact (List.getLast?_append_of_ne_nil u hne).symm

/-- Decomposition of a suffix of `A ++ nm`: it is a suffix of `nm`, or it
extends `nm` by a suffix of `A`. -/
lemma suffix_append_decomp {A nm s : List Char} (h : s <:+ A ++ nm) :
    s <:+ nm ∨ ∃ s₀, s₀ ++ nm = s ∧ s₀ <:+ A := by
  rcases List.suffix_or_suffix_of_suffix h (List.suffix_append A nm) with h' | h'
  · exact .inl h'
  · obtain ⟨s₀, rfl⟩ := h'
    obtain ⟨u, hu⟩ := h
    rw [← List.append_assoc] at hu
    exact .inr ⟨s₀, rfl, u, List.append_cancel_right hu⟩

lemma endswith_vmKey_of_suffix {t : VmType} {vmid : Nat} {sfx s : String}
    (h : s.data <:+ sfx.data) : endswith (vmKeyRoot t vmid ++ sfx) s = true := by
  simp only [endswith, decide_eq_true_eq, vmKey_data, ← List.append_assoc]
  exact h.trans (List.suffix_append _ _)

lemma endswith_vmKey_of_not {t : VmType} {vmid : Nat} {sfx s : String}
    (h1 : ¬ s.data <:+ sfx.data) (h2 : ¬ sfx.data <:+ s.data) :
    endswith (vmKeyRoot t vmid ++ sfx) s = false := by
  simp only [endswith, decide_eq_false_iff_not, vmKey_data, ← List.append_assoc]
  intro hsuf
  rcases suffix_append_decomp hsuf with h | ⟨s₀, hs₀, -⟩
  · exact h1 h
  · exact h2 ⟨s₀, hs₀⟩

lemma endswith_vmKey_of_boundary {t : VmType} {vmid : Nat} {sfx s : String}
    {s₀ : List Char} {c : Char} (hs : s.data = s₀ ++ sfx.data)
    (hlast : s₀.getLast? = some c) (hc : c ∉ digitChars) :
    endswith (vmKeyRoot t vmid ++ sfx) s = false := by
  simp only [endswith, decide_eq_false_iff_not, vmKey_data, ← List.append_assoc]
  intro hsuf
  have hs₀ne : s₀ ≠ [] := by
    intro h0
    rw [h0] at hlast
    simp at hlast
  rcases suffix_append_decomp hsuf with h | ⟨s₁, hs₁, hsufA⟩
  · rw [hs] at h
    have hlen := h.length_le
    rw [List.length_append] at hlen
    exact hs₀ne (List.eq_nil_of_length_eq_zero (by omega))
  · rw [hs] at hs₁
    obtain rfl := List.append_cancel_right hs₁
    have hA : (typePfx t ++ natChars vmid).getLast? = (natChars vmid).getLast? :=
      List.getLast?_append_of_ne_nil _ (natChars_ne_nil vmid)
    have := suffix_getLast_eq hsufA hs₀ne
    rw [hlast, hA] at this
    exact hc (natChars_getLast_digit this.symm)

lemma vmKey_ne_host_unalloc (t : VmType) (vmid : Nat) (sfx : String) :
    vmKeyRoot t vmid ++ sfx ≠ "proxmox_host_unallocated_cpus" := by
  intro h
  have htag := vmKey_tag t vmid sfx
  rw [h] at htag
  cases t <;> exact absurd htag (by decide)

lemma matchCount_vmKey (t : VmType) (vmid : Nat) {sfx : String} (hs : sfx ∈ vmStatSuffixes) :
    matchCount (vmKeyRoot t vmid ++ sfx) = 1 := by
  have hcpus : endswith (vmKeyRoot t vmid ++ "_cpus") "unallocated_cpus" = false :=
    @endswith_vmKey_of_boundary t vmid "_cpus" "unallocated_cpus" ("unallocated".data) 'd'
      (by decide) (by decide) (by decide)
  fin_cases hs <;>
    simp +decide [matchCount, sensor_definitions, List.filter_cons, hcpus,
      endswith_vmKey_of_suffix, endswith_vmKey_of_not]

/-! ## Title-case and lookup helpers -/

lemma titleAux_digits {l : List Char} (h : ∀ c ∈ l, c ∈ digitChars) (b : Bool) :
    titleAux b l = l := by
  induction l generalizing b with
  | nil => rfl
  | cons c cs ih =>
    have hdig : ∀ d ∈ digitChars, d.isAlpha = false := by decide
    have hc : c.isAlpha = false := hdig c (h c (by simp))
    simp only [titleAux, hc, Bool.false_eq_true, if_false]
    rw [ih (fun d hd => h d (by simp [hd]))]

lemma map_id_digits {f : Char → Char} (hf : ∀ c ∈ digitChars, f c = c) {l : List Char}
    (h : ∀ c ∈ l, c ∈ digitChars) : l.map f = l := by
  induction l with
  | nil => rfl
  | cons c cs ih =>
    rw [List.map_cons, hf c (h c (by simp)), ih (fun d hd => h d (by simp [hd]))]

lemma strApp_beq (r a b : String) : (r ++ a == r ++ b) = (a == b) := by
  rcases h : a == b with - | -
  · have : a ≠ b := by simpa using h
    simpa using fun hc => this (strApp_left_cancel hc)
  · have : a = b := by simpa using h
    subst this
    simp

lemma friendly_default_qemu (vmid : Nat) :
    get_friendly_name vmid none .qemu = "Qemu " ++ natStr vmid ++ " VM" := by
  apply str_data_inj
  have hds : ∀ c ∈ natChars vmid, c ∈ digitChars := fun c hc => natChars_digits hc
  simp only [get_friendly_name, pyTitle, pyReplace, natStr, strApp_data, vmTypeStr,
    if_pos rfl]
  rw [show ("qemu".data ++ " ".data ++ natChars vmid : List Char) =
    'q' :: 'e' :: 'm' :: 'u' :: ' ' :: natChars vmid from by simp]
  rw [show ∀ l, List.map (fun c => if c = '_' then ' ' else c)
      ('q' :: 'e' :: 'm' :: 'u' :: ' ' :: l) =
      'q' :: 'e' :: 'm' :: 'u' :: ' ' :: List.map (fun c => if c = '_' then ' ' else c) l
    from fun l => by simp]
  rw [map_id_digits (by decide) hds]
  rw [show ∀ l, List.map (fun c => if c = '-' then ' ' else c)
      ('q' :: 'e' :: 'm' :: 'u' :: ' ' :: l) =
      'q' :: 'e' :: 'm' :: 'u' :: ' ' :: List.map (fun c => if c = '-' then ' ' else c) l
    from fun l => by simp]
  rw [map_id_digits (by decide) hds]
  rw [show ∀ l, titleAux false ('q' :: 'e' :: 'm' :: 'u' :: ' ' :: l) =
      'Q' :: 'e' :: 'm' :: 'u' :: ' ' :: titleAux false l from fun l => by
    simp [titleAux]]
  rw [titleAux_digits hds]
  simp

lemma friendly_default_lxc (vmid : Nat) :
    get_friendly_name vmid none .lxc = "Lxc " ++ natStr vmid ++ " LXC" := by
  apply str_data_inj
  have hds : ∀ c ∈ natChars vmid, c ∈ digitChars := fun c hc => natChars_digits hc
  simp only [get_friendly_name, pyTitle, pyReplace, natStr, strApp_data, vmTypeStr]
  rw [if_neg (by simp)]
  rw [show ("lxc".data ++ " ".data ++ natChars vmid : List Char) =
    'l' :: 'x' :: 'c' :: ' ' :: natChars vmid from by simp]
  rw [show ∀ l, List.map (fun c => if c = '_' then ' ' else c)
      ('l' :: 'x' :: 'c' :: ' ' :: l) =
      'l' :: 'x' :: 'c' :: ' ' :: List.map (fun c => if c = '_' then ' ' else c) l
    from fun l => by simp]
  rw [map_id_digits (by decide) hds]
  rw [show ∀ l, List.map (fun c => if c = '-' then ' ' else c)
      ('l' :: 'x' :: 'c' :: ' ' :: l) =
      'l' :: 'x' :: 'c' :: ' ' :: List.map (fun c => if c = '-' then ' ' else c) l
    from fun l => by simp]
  rw [map_id_digits (by decide) hds]
  rw [show ∀ l, titleAux false ('l' :: 'x' :: 'c' :: ' ' :: l) =
      'L' :: 'x' :: 'c' :: ' ' :: titleAux false l from fun l => by
    simp [titleAux]]
  rw [titleAux_digits hds]
  simp

/-! ## Miscellaneous facts -/

lemma pyCeil_pos {q : ℚ} (h : 0 < q) : 0 < pyCeil q := by
  unfold pyCeil Rat.ceil
  have hnum : 0 < q.num := Rat.num_pos.mpr h
  split
  · exact hnum
  · have h0 : (0 : Int) ≤ q.num / q.den :=
      Int.ediv_nonneg (le_of_lt hnum) (by positivity)
    omega

/-! ## Concrete fixtures used by witnesses and counterexamples -/

/-- A context whose environment has no SSH variables configured. -/
def demoCtx : Ctx := {
  mqtt_topic_root := "proxmox/stats"
  now := 1000000
  isoUtc := fun _ => "1970-01-12T13:46:40+00:00"
  env := fun _ => none
  sshExec := fun _ _ _ => " 42%\n" }

/-- A context whose environment configures every SSH variable as `"x"`. -/
def demoCtxSsh : Ctx := { demoCtx with env := fun _ => some "x" }

def demoNode : NodeStatus := {
  memory_total := 16000000000
  memory_used := 8000000000
  rootfs_total := 100000000000
  rootfs_used := 50000000000
  cpuinfo_cpus := 8
  uptime := some 3600 }

/-- A node status whose totals are zero. -/
def zeroNode : NodeStatus := {
  memory_total := 0
  memory_used := 0
  rootfs_total := 0
  rootfs_used := 0
  cpuinfo_cpus := 8
  uptime := some 3600 }

/-- Node with memory present but a zero-size root filesystem. -/
def memOnlyNode : NodeStatus := {
  memory_total := 16000000000
  memory_used := 8000000000
  rootfs_total := 0
  rootfs_used := 0
  cpuinfo_cpus := 8
  uptime := none }

def demoVmRow : VmListEntry :=
  { vmid := 101, vm_type := .lxc, maxmem := some 2147483648, cpus := some 2 }

def demoVmRow2 : VmListEntry :=
  { vmid := 100, vm_type := .qemu, maxmem := some 1073741824, cpus := some 2 }

def demoVmStatus : VmStatus := {
  name := some "home_assistant"
  maxmem := some 2147483648
  mem := some 1073741824
  cpus := some 2
  cpu := some (1/2)
  maxdisk := some 34359738368
  disk := some 17179869184
  uptime := some 3600 }

def demoStatusOf : VmType → Nat → VmStatus := fun _ _ => demoVmStatus

/-- VM status with no allocations (all memory/cpu fields absent). -/
def zeroVmStatus : VmStatus := {
  name := none, maxmem := none, mem := none, cpus := none, cpu := none,
  maxdisk := none, disk := none, uptime := none }

/-- VM status whose memory usage exceeds its allocation (3 of 2 bytes). -/
def overStatus : VmStatus := {
  name := none, maxmem := some 2, mem := some 3, cpus := none, cpu := none,
  maxdisk := none, disk := none, uptime := none }

/-- VM status used by the C5 counterexample: 1 byte reported used on a
2 GiB allocated disk. -/
def c5Status : VmStatus := {
  name := none, maxmem := some 0, mem := some 0, cpus := some 1, cpu := some 0,
  maxdisk := some 2147483648, disk := some 1, uptime := some 0 }

def demoStorage : StorageEntry := {
  storage := some "nas", total := some 6000000000000, used := some 3000000000000,
  used_fraction := some (1/2) }

/-! ## Claim C1 -/

/-- C1 counterexample: contrary to the claim, the host percentage metrics
are not guarded: on a host status whose memory total is `0` the collector
raises a division fault instead of producing `0`. -/
theorem c1_host_division_fault_counterexample :
    get_host_stats demoCtx zeroNode [] = .error .zeroDivisionError := rfl

/-- C1 (amended): the guarded-division rule holds for the VM/container
percentage metrics (memory-used-percent, percent-of-host-memory,
percent-of-host-cpu): a zero denominator yields `0` and collection
succeeds; but the host's memory-used-percent and disk-used-percent are
unguarded, and a zero denominator raises a division fault there. -/
theorem c1_zero_denominator_guards (ctx : Ctx) (vmid : Nat) (st : VmStatus) (tm tc : ℚ)
    (ns : NodeStatus) (vrows : List VmListEntry) :
    (∃ ms, get_vm_stats ctx vmid .lxc st tm tc = .ok ms ∧
      (st.maxmem.getD 0 = 0 →
        ms.stats.lookup (vmKeyRoot .lxc vmid ++ "_memory_used_percent") =
          some (Value.num 0)) ∧
      (tm = 0 →
        ms.stats.lookup (vmKeyRoot .lxc vmid ++ "_percent_of_host_memory") =
          some (Value.num 0)) ∧
      (tc = 0 →
        ms.stats.lookup (vmKeyRoot .lxc vmid ++ "_percent_of_host_cpu") =
          some (Value.num 0))) ∧
    (∀ a b c, ctx.env ("SSH_HOST_QEMU_" ++ natStr vmid) = some a →
      ctx.env ("SSH_USERNAME_QEMU_" ++ natStr vmid) = some b →
      ctx.env ("SSH_KEY_PATH_QEMU_" ++ natStr vmid) = some c →
      ∃ ms, get_vm_stats ctx vmid .qemu st tm tc = .ok ms ∧
        (st.maxmem.getD 0 = 0 →
          ms.stats.lookup (vmKeyRoot .qemu vmid ++ "_memory_used_percent") =
            some (Value.num 0)) ∧
        (tm = 0 →
          ms.stats.lookup (vmKeyRoot .qemu vmid ++ "_percent_of_host_memory") =
            some (Value.num 0)) ∧
        (tc = 0 →
          ms.stats.lookup (vmKeyRoot .qemu vmid ++ "_percent_of_host_cpu") =
            some (Value.num 0))) ∧
    (ns.memory_total = 0 →
      get_host_stats ctx ns vrows = .error .zeroDivisionError) ∧
    (ns.memory_total ≠ 0 → ns.rootfs_total = 0 →
      get_host_stats ctx ns vrows = .error .zeroDivisionError) := by
  refine ⟨⟨_, rfl, fun h => ?_, fun h => ?_, fun h => ?_⟩, ?_, fun h => ?_, fun h1 h2 => ?_⟩
  · simp +decide [get_vm_stats, vmKeyRoot, List.lookup, strApp_beq, h]
  · simp +decide [get_vm_stats, vmKeyRoot, List.lookup, strApp_beq, h]
  · simp +decide [get_vm_stats, vmKeyRoot, List.lookup, strApp_beq, h]
  · intro a b c h1 h2 h3
    refine ⟨{
      friendly_name := get_friendly_name vmid st.name .qemu
      device_id := vmKeyRoot .qemu vmid
      device_model := "VM"
      state_topic_root := ctx.mqtt_topic_root ++ "/proxmox_" ++ vmTypeStr .qemu ++ "/" ++ natStr vmid
      stats := [
        (vmKeyRoot .qemu vmid ++ "_last_boot_time",
          Value.str (ctx.isoUtc (ctx.now - pyInt (st.uptime.getD 0)))),
        (vmKeyRoot .qemu vmid ++ "_memory_used_percent",
          Value.num (if st.maxmem.getD 0 ≠ 0
            then pyRound 2 (st.mem.getD 0 / st.maxmem.getD 0 * 100) else 0)),
        (vmKeyRoot .qemu vmid ++ "_disk_used_percent",
          Value.str (pyRstrip (pyStrip (ctx.sshExec a b c)) '%')),
        (vmKeyRoot .qemu vmid ++ "_percent_of_host_memory",
          Value.num (if tm ≠ 0 then pyRound 2 (st.mem.getD 0 / tm * 100) else 0)),
        (vmKeyRoot .qemu vmid ++ "_percent_of_host_cpu",
          Value.num (if tc ≠ 0 then pyRound 2 (st.cpu.getD 0 / tc * 100) else 0)),
        (vmKeyRoot .qemu vmid ++ "_cpus", Value.num (st.cpus.getD 0)),
        (vmKeyRoot .qemu vmid ++ "_memory_allocated_mb",
          Value.num (pyInt (bytes_to_mib (st.maxmem.getD 0)) : ℚ)),
        (vmKeyRoot .qemu vmid ++ "_disk_allocated_gb",
          Value.num (pyRound 2 (pyCeil (bytes_to_gib (st.maxdisk.getD 0)) : ℚ)))] },
      ?_, fun h => ?_, fun h => ?_, fun h => ?_⟩
    · simp only [get_vm_stats, get_vm_disk_usage, h1, h2, h3, Except.map, vmKeyRoot]
      rfl
    · simp +decide [vmKeyRoot, List.lookup, strApp_beq, h]
    · simp +decide [vmKeyRoot, List.lookup, strApp_beq, h]
    · simp +decide [vmKeyRoot, List.lookup, strApp_beq, h]
  · simp [get_host_stats, pyDiv, h]
  · simp [get_host_stats, pyDiv, h1, h2]

/-- C1 witness: the amended statement exercised at concrete inputs (an
unallocated container, an unallocated VM with a configured SSH triple,
and hosts whose memory or disk total is zero). -/
theorem c1_zero_denominator_guards_witness :
    (∃ ms, get_vm_stats demoCtx 101 .lxc zeroVmStatus 0 0 = .ok ms ∧
      ms.stats.lookup (vmKeyRoot .lxc 101 ++ "_memory_used_percent") = some (Value.num 0) ∧
      ms.stats.lookup (vmKeyRoot .lxc 101 ++ "_percent_of_host_memory") = some (Value.num 0) ∧
      ms.stats.lookup (vmKeyRoot .lxc 101 ++ "_percent_of_host_cpu") = some (Value.num 0)) ∧
    (∃ ms, get_vm_stats demoCtxSsh 100 .qemu zeroVmStatus 0 0 = .ok ms ∧
      ms.stats.lookup (vmKeyRoot .qemu 100 ++ "_memory_used_percent") = some (Value.num 0) ∧
      ms.stats.lookup (vmKeyRoot .qemu 100 ++ "_percent_of_host_memory") = some (Value.num 0) ∧
      ms.stats.lookup (vmKeyRoot .qemu 100 ++ "_percent_of_host_cpu") = some (Value.num 0)) ∧
    get_host_stats demoCtx zeroNode [] = .error .zeroDivisionError ∧
    get_host_stats demoCtx memOnlyNode [] = .error .zeroDivisionError := by
  obtain ⟨⟨ms, hok, g1, g2, g3⟩, -, hc, -⟩ :=
    c1_zero_denominator_guards demoCtx 101 zeroVmStatus 0 0 zeroNode []
  obtain ⟨-, hb, -, hd⟩ :=
    c1_zero_denominator_guards demoCtxSsh 100 zeroVmStatus 0 0 memOnlyNode []
  obtain ⟨ms2, hok2, k1, k2, k3⟩ := hb "x" "x" "x" rfl rfl rfl
  exact ⟨⟨ms, hok, g1 rfl, g2 rfl, g3 rfl⟩,
    ⟨ms2, hok2, k1 rfl, k2 rfl, k3 rfl⟩, hc rfl,
    (c1_zero_denominator_guards demoCtx 100 zeroVmStatus 0 0 memOnlyNode []).2.2.2
      (by decide) rfl⟩

/-! ## Claim C2 -/

/-- C2 counterexample: `proxmox_host_unallocated_cpus` is a producible
metric key that is suffix-matched by two catalog entries
(`unallocated_cpus` and `cpus`), so "exactly one" fails. -/
theorem c2_double_match_counterexample :
    "proxmox_host_unallocated_cpus" ∈ hostKeyList ∧
    matchCount "proxmox_host_unallocated_cpus" = 2 ∧
    matchCount "proxmox_host_unallocated_cpus" ≠ 1 := by decide

/-- C2 (amended): every metric key a collection cycle can produce is
suffix-matched by exactly one sensor definition, except
`proxmox_host_unallocated_cpus`, which is matched by exactly two (the
intended `unallocated_cpus` entry is listed first, so the first-match
lookup still selects it; in particular the lookup never fails). -/
theorem c2_catalog_suffix_match (ctx : Ctx) (nas_name : String) (ns : NodeStatus)
    (all_vms : List VmListEntry) (statusOf : VmType → Nat → VmStatus)
    (sd : List StorageEntry) (s : Stats)
    (h : collect_stats ctx nas_name ns all_vms statusOf sd = .ok s)
    (k : String) (hk : k ∈ statsKeys s) :
    matchCount k = if k = "proxmox_host_unallocated_cpus" then 2 else 1 := by
  rw [collect_statsKeys h] at hk
  rcases List.mem_append.1 hk with hk | hk
  · fin_cases hk <;> decide
  · rcases List.mem_append.1 hk with hk | hk
    · obtain ⟨⟨t, i⟩, -, hkv⟩ := List.mem_flatMap.1 hk
      obtain ⟨sfx, hs, rfl⟩ := vmKeyList_mem hkv
      rw [if_neg (vmKey_ne_host_unalloc t i sfx)]
      exact matchCount_vmKey t i hs
    · cases hcase : get_nas_stats ctx sd nas_name with
      | none =>
        rw [hcase] at hk
        simp at hk
      | some l =>
        rw [hcase] at hk
        simp only [] at hk
        fin_cases hk <;> decide

/-- C2 witness: a concrete cycle and the key `proxmox_host_total_cpus`,
which is matched by exactly one catalog entry. -/
theorem c2_catalog_suffix_match_witness : matchCount "proxmox_host_total_cpus" = 1 := by
  have h := c2_catalog_suffix_match demoCtx "nas" demoNode [demoVmRow] demoStatusOf [] _ rfl
    "proxmox_host_total_cpus" (by decide)
  rwa [if_neg (by decide)] at h

/-! ## Claim C3 -/

/-- C3 counterexample: for a VM whose SSH triple is not configured in the
environment, collection raises an SSH connection error instead of
omitting the metric and succeeding. -/
theorem c3_missing_ssh_triple_counterexample :
    get_vm_stats demoCtx 100 .qemu demoVmStatus 1 1 = .error .sshConnectError := rfl

/-- C3 (amended): the disk-used-percent metric is never omitted — every
successful VM/container MetricSet contains its key — and when the
per-instance SSH triple is not configured for a `qemu` VM, collection
fails with an SSH connection error rather than succeeding. -/
theorem c3_vm_disk_metric_not_omitted (ctx : Ctx) (vmid : Nat) (st : VmStatus) (tm tc : ℚ) :
    (ctx.env ("SSH_HOST_QEMU_" ++ natStr vmid) = none →
     ctx.env ("SSH_USERNAME_QEMU_" ++ natStr vmid) = none →
     ctx.env ("SSH_KEY_PATH_QEMU_" ++ natStr vmid) = none →
     get_vm_stats ctx vmid .qemu st tm tc = .error .sshConnectError) ∧
    (∀ t ms, get_vm_stats ctx vmid t st tm tc = .ok ms →
       (vmKeyRoot t vmid ++ "_disk_used_percent") ∈ ms.stats.map Prod.fst) := by
  constructor
  · intro h1 h2 h3
    simp [get_vm_stats, get_vm_disk_usage, h1, Except.map]
  · intro t ms h
    rw [get_vm_stats_keys h]
    simp [vmKeyList, vmStatSuffixes]

/-- C3 witness: the amended statement at concrete inputs. -/
theorem c3_vm_disk_metric_not_omitted_witness :
    get_vm_stats demoCtx 100 .qemu demoVmStatus 1 1 = .error .sshConnectError ∧
    (∃ ms, get_vm_stats demoCtx 101 .lxc demoVmStatus 1 1 = .ok ms ∧
      (vmKeyRoot .lxc 101 ++ "_disk_used_percent") ∈ ms.stats.map Prod.fst) :=
  ⟨(c3_vm_disk_metric_not_omitted demoCtx 100 demoVmStatus 1 1).1 rfl rfl rfl,
    ⟨_, rfl, (c3_vm_disk_metric_not_omitted demoCtx 101 demoVmStatus 1 1).2 .lxc _ rfl⟩⟩

/-! ## Claim C4 -/

/-- C4: when the configured storage-volume name is absent, `get_nas_stats`
does return the `None` sentinel and collection completes — but the
publishing step then iterates over `None` and raises `TypeError`, so the
remainder of the cycle does not complete. This evaluates the code at the
failing input. -/
theorem c4_nas_missing_publish_type_error :
    get_nas_stats demoCtx [] "nas" = none ∧
    (∃ s, collect_stats demoCtx "nas" demoNode [demoVmRow] demoStatusOf [] = .ok s ∧
      s.nas = none ∧ publish_all_stats_to_mqtt s = .error .typeError) :=
  ⟨rfl, ⟨_, rfl, rfl, rfl⟩⟩

/-! ## Claim C5 -/

/-- C5 counterexample: a container with 1 byte of reported disk usage on
a 2 GiB allocation gets `50.0` percent from the code (ratio of ceiled
GiB values `1/2`), while the claimed raw-byte ratio rounds to `0`. -/
theorem c5_raw_bytes_counterexample :
    (∃ ms, get_vm_stats demoCtx 200 .lxc c5Status 1 1 = .ok ms ∧
      ms.stats.lookup "proxmox_lxc_200_disk_used_percent" = some (Value.num 50)) ∧
    pyRound 2 ((1 : ℚ) / 2147483648 * 100) = 0 ∧ (50 : ℚ) ≠ 0 :=
  ⟨⟨_, rfl, by decide⟩, by decide, by decide⟩

/-- C5 (amended): for a container with allocated disk bytes > 0, the
disk-used-percent metric is
`round(ceil(bytesToGiB(disk)) / ceil(bytesToGiB(maxdisk)) * 100, 2)` —
the ratio is taken over the *ceiled gibibyte* values, not the raw byte
counts. -/
theorem c5_container_disk_percent_ceiled (ctx : Ctx) (vmid : Nat) (st : VmStatus)
    (tm tc : ℚ) (hpos : 0 < st.maxdisk.getD 0) :
    ∃ ms, get_vm_stats ctx vmid .lxc st tm tc = .ok ms ∧
      ms.stats.lookup (vmKeyRoot .lxc vmid ++ "_disk_used_percent") =
        some (Value.num (pyRound 2
          ((pyCeil (bytes_to_gib (st.disk.getD 0)) : ℚ) /
           (pyCeil (bytes_to_gib (st.maxdisk.getD 0)) : ℚ) * 100))) := by
  have halloc : pyCeil (bytes_to_gib (st.maxdisk.getD 0)) ≠ 0 :=
    ne_of_gt (pyCeil_pos (div_pos hpos (by norm_num)))
  refine ⟨_, rfl, ?_⟩
  simp +decide [get_vm_stats, vmKeyRoot, List.lookup, strApp_beq, halloc]

/-- C5 witness: the amended statement at the counterexample's input. -/
theorem c5_container_disk_percent_ceiled_witness :
    0 < c5Status.maxdisk.getD 0 ∧
    (∃ ms, get_vm_stats demoCtx 200 .lxc c5Status 1 1 = .ok ms ∧
      ms.stats.lookup (vmKeyRoot .lxc 200 ++ "_disk_used_percent") =
        some (Value.num (pyRound 2
          ((pyCeil (bytes_to_gib (c5Status.disk.getD 0)) : ℚ) /
           (pyCeil (bytes_to_gib (c5Status.maxdisk.getD 0)) : ℚ) * 100)))) :=
  ⟨by decide, c5_container_disk_percent_ceiled demoCtx 200 c5Status 1 1 (by decide)⟩

/-! ## Claim C6 -/

/-- C6: across one collection cycle over virtual machines and containers
with pairwise-distinct (type, vmid) pairs, the metric keys of all
MetricSets (host, VMs/containers, NAS) are pairwise distinct, and every
per-resource key carries the prefix `proxmox_<type>_<vmid>_`. -/
theorem c6_metric_key_uniqueness (ctx : Ctx) (nas_name : String) (ns : NodeStatus)
    (all_vms : List VmListEntry) (statusOf : VmType → Nat → VmStatus)
    (sd : List StorageEntry) (s : Stats)
    (h : collect_stats ctx nas_name ns all_vms statusOf sd = .ok s)
    (hdist : (all_vms.map fun v => (v.vm_type, v.vmid)).Pairwise (· ≠ ·)) :
    (statsKeys s).Nodup ∧
    List.Forall₂ (fun (v : VmListEntry) (m : MetricSet) =>
      ∀ k ∈ m.stats.map Prod.fst, ∃ rest, k = vmKeyRoot v.vm_type v.vmid ++ ("_" ++ rest))
      all_vms s.vms := by
  obtain ⟨-, hf, -⟩ := collect_stats_shape h
  constructor
  · rw [collect_statsKeys h]
    have hfull := cycle_keys_nodup (all_vms.map fun v => (v.vm_type, v.vmid)) hdist
    cases hcase : get_nas_stats ctx sd nas_name with
    | none =>
      rw [List.append_nil]
      exact List.Nodup.sublist
        (List.Sublist.append_left (List.sublist_append_left _ _) _) hfull
    | some l => exact hfull
  · refine hf.imp ?_
    intro v m hm k hk
    rw [hm] at hk
    obtain ⟨sfx, hsfx, rfl⟩ := vmKeyList_mem hk
    obtain ⟨r, hr⟩ := vmStatSuffix_shape hsfx
    refine ⟨⟨r⟩, ?_⟩
    rw [show sfx = "_" ++ (⟨r⟩ : String) from str_data_inj (by simp [strApp_data, hr])]

/-- C6 witness: a concrete cycle with one VM and one container (distinct
ids) and a present NAS volume; all nineteen keys are distinct. -/
theorem c6_metric_key_uniqueness_witness :
    ∃ s, collect_stats demoCtxSsh "nas" demoNode [demoVmRow2, demoVmRow] demoStatusOf
        [demoStorage] = .ok s ∧ (statsKeys s).Nodup :=
  ⟨_, rfl, (c6_metric_key_uniqueness demoCtxSsh "nas" demoNode [demoVmRow2, demoVmRow]
    demoStatusOf [demoStorage] _ rfl (by decide)).1⟩

/-! ## Claim C7 -/

/-- C7: for every `(used, total)` with `total > 0`, each guarded
percentage equals `round(used/total*100, 2)` with no upper clamp — the
value is the rounded ratio itself, for the three guarded VM/container
percentages and for the two host percentages. -/
theorem c7_percent_formula_unclamped (ctx : Ctx) (vmid : Nat) (st : VmStatus) (tm tc : ℚ)
    (ns : NodeStatus) (vrows : List VmListEntry) :
    (st.maxmem.getD 0 ≠ 0 →
      ∃ ms, get_vm_stats ctx vmid .lxc st tm tc = .ok ms ∧
        ms.stats.lookup (vmKeyRoot .lxc vmid ++ "_memory_used_percent") =
          some (Value.num (pyRound 2 (st.mem.getD 0 / st.maxmem.getD 0 * 100)))) ∧
    (tm ≠ 0 → ∃ ms, get_vm_stats ctx vmid .lxc st tm tc = .ok ms ∧
        ms.stats.lookup (vmKeyRoot .lxc vmid ++ "_percent_of_host_memory") =
          some (Value.num (pyRound 2 (st.mem.getD 0 / tm * 100)))) ∧
    (tc ≠ 0 → ∃ ms, get_vm_stats ctx vmid .lxc st tm tc = .ok ms ∧
        ms.stats.lookup (vmKeyRoot .lxc vmid ++ "_percent_of_host_cpu") =
          some (Value.num (pyRound 2 (st.cpu.getD 0 / tc * 100)))) ∧
    (ns.memory_total ≠ 0 → ns.rootfs_total ≠ 0 →
      ∃ e, get_host_stats ctx ns vrows = .ok [e] ∧
        e.stats.lookup "proxmox_host_memory_used_percent" =
          some (Value.num (pyRound 2 (ns.memory_used / ns.memory_total * 100))) ∧
        e.stats.lookup "proxmox_host_disk_used_percent" =
          some (Value.num (pyRound 2 (ns.rootfs_used / ns.rootfs_total * 100)))) := by
  refine ⟨fun h => ⟨_, rfl, ?_⟩, fun h => ⟨_, rfl, ?_⟩, fun h => ⟨_, rfl, ?_⟩,
    fun h1 h2 => ?_⟩
  · simp +decide [get_vm_stats, vmKeyRoot, List.lookup, strApp_beq, h]
  · simp +decide [get_vm_stats, vmKeyRoot, List.lookup, strApp_beq, h]
  · simp +decide [get_vm_stats, vmKeyRoot, List.lookup, strApp_beq, h]
  · refine ⟨{
      device_id := "proxmox_host"
      device_model := "Proxmox Host"
      friendly_name := "Proxmox Host"
      total_host_mem := ns.memory_total
      total_host_cpus := ns.cpuinfo_cpus
      state_topic_root := ctx.mqtt_topic_root ++ "/proxmox_host"
      stats := [
        ("proxmox_host_disk_size_gb", Value.num (pyCeil (bytes_to_gib ns.rootfs_total) : ℚ)),
        ("proxmox_host_total_cpus", Value.num ns.cpuinfo_cpus),
        ("proxmox_host_unallocated_cpus",
          Value.num (ns.cpuinfo_cpus - (vrows.map (fun vm => vm.cpus.getD 0)).sum)),
        ("proxmox_host_memory_used_percent",
          Value.num (pyRound 2 (ns.memory_used / ns.memory_total * 100))),
        ("proxmox_host_disk_used_percent",
          Value.num (pyRound 2 (ns.rootfs_used / ns.rootfs_total * 100))),
        ("proxmox_host_last_boot_time",
          Value.str (ctx.isoUtc (ctx.now - pyInt (ns.uptime.getD 0))))] }, ?_, ?_, ?_⟩
    · simp only [get_host_stats, pyDiv, if_neg h1, if_neg h2]
    · simp +decide [List.lookup]
    · simp +decide [List.lookup]

/-- C7 witness: a container using 3 bytes of a 2-byte allocation reports
the unclamped `150.0` percent, and the host formula at 50 percent. -/
theorem c7_percent_formula_unclamped_witness :
    (∃ ms, get_vm_stats demoCtx 102 .lxc overStatus 1 1 = .ok ms ∧
      ms.stats.lookup (vmKeyRoot .lxc 102 ++ "_memory_used_percent") =
        some (Value.num 150)) ∧ (100 : ℚ) < 150 ∧
    (∃ e, get_host_stats demoCtx demoNode [] = .ok [e] ∧
      e.stats.lookup "proxmox_host_memory_used_percent" =
        some (Value.num (pyRound 2 (demoNode.memory_used / demoNode.memory_total * 100))) ∧
      e.stats.lookup "proxmox_host_disk_used_percent" =
        some (Value.num (pyRound 2 (demoNode.rootfs_used / demoNode.rootfs_total * 100)))) := by
  obtain ⟨ms, hok, hl⟩ :=
    (c7_percent_formula_unclamped demoCtx 102 overStatus 1 1 demoNode []).1 (by decide)
  have hv : pyRound 2 (overStatus.mem.getD 0 / overStatus.maxmem.getD 0 * 100) = 150 := by
    decide
  rw [hv] at hl
  exact ⟨⟨ms, hok, hl⟩, by norm_num,
    (c7_percent_formula_unclamped demoCtx 0 zeroVmStatus 0 0 demoNode []).2.2.2
      (by decide) (by decide)⟩

/-! ## Claim C8 -/

/-- C8: the naming formatter satisfies the two specified examples; in
general an absent raw name is synthesized as `"<kind> <id>"`, underscores
and hyphens become spaces, title-case capitalization is applied, and the
kind suffix `"VM"` (qemu) or `"LXC"` (otherwise) is appended. -/
theorem c8_friendly_name_spec :
    get_friendly_name 100 none .qemu = "Qemu 100 VM" ∧
    get_friendly_name 101 (some "home_assistant") .lxc = "Home Assistant LXC" ∧
    (∀ vmid, get_friendly_name vmid none .qemu = "Qemu " ++ natStr vmid ++ " VM") ∧
    (∀ vmid, get_friendly_name vmid none .lxc = "Lxc " ++ natStr vmid ++ " LXC") ∧
    (∀ vmid (name : String) (t : VmType), name ≠ "" →
      get_friendly_name vmid (some name) t =
        pyTitle (pyReplace (pyReplace name '_' ' ') '-' ' ') ++ " " ++
          (if t = .qemu then "VM" else "LXC")) := by
  refine ⟨by decide, by decide, friendly_default_qemu, friendly_default_lxc, ?_⟩
  intro vmid name t hname
  simp [get_friendly_name, hname]

/-- C8 witness: the present-name clause applied at the specified
example. -/
theorem c8_friendly_name_spec_witness :
    get_friendly_name 101 (some "home_assistant") .lxc =
      pyTitle (pyReplace (pyReplace "home_assistant" '_' ' ') '-' ' ') ++ " " ++
        (if VmType.lxc = VmType.qemu then "VM" else "LXC") :=
  c8_friendly_name_spec.2.2.2.2 101 "home_assistant" .lxc (by decide)

/-! ## Claim C9 -/

/-- C9: a discovery payload carries no `state_class` marker exactly when
the sensor definition's class is `"timestamp"`; in every other case (a
different class, an empty class, or none at all) it carries
`state_class = "measurement"`. -/
theorem c9_state_class_omitted_for_timestamp (sensor_key name state_topic : String)
    (device_info : DeviceInfo) (unit device_class icon : Option String) :
    (build_discovery_payload sensor_key name state_topic device_info
        unit device_class icon).state_class =
      if device_class = some "timestamp" then none else some "measurement" := by
  unfold build_discovery_payload
  rcases device_class with - | dc
  · cases hico : pyTruthyStr icon <;> simp [pyTruthyStr, hico]
  · by_cases ht : dc = "timestamp"
    · subst ht
      cases hico : pyTruthyStr icon <;> simp [pyTruthyStr, hico]
    · by_cases hs : dc = ""
      · subst hs
        cases hico : pyTruthyStr icon <;> simp [pyTruthyStr, hico]
      · cases hico : pyTruthyStr icon <;> simp [pyTruthyStr, hico, hs, ht]

/-! ## Claim C10 -/

/-- C10: whenever host collection succeeds (its two unguarded divisions
have nonzero denominators), the host MetricSet's stats mapping contains
exactly the six keys `proxmox_host_disk_size_gb`,
`proxmox_host_total_cpus`, `proxmox_host_unallocated_cpus`,
`proxmox_host_memory_used_percent`, `proxmox_host_disk_used_percent`,
`proxmox_host_last_boot_time`, in this order. -/
theorem c10_host_metric_keys (ctx : Ctx) (ns : NodeStatus) (vms : List VmListEntry)
    (hm : ns.memory_total ≠ 0) (hd : ns.rootfs_total ≠ 0) :
    ∃ e, get_host_stats ctx ns vms = .ok [e] ∧ e.stats.map Prod.fst = hostKeyList := by
  rcases hok : get_host_stats ctx ns vms with e | l
  · exfalso
    simp [get_host_stats, pyDiv, hm, hd] at hok
  · obtain ⟨e0, rfl, hkeys, -, -⟩ := get_host_stats_shape hok
    exact ⟨e0, rfl, hkeys⟩

/-- C10 witness: the host key list at a concrete node status. -/
theorem c10_host_metric_keys_witness :
    ∃ e, get_host_stats demoCtx demoNode [demoVmRow] = .ok [e] ∧
      e.stats.map Prod.fst = hostKeyList :=
  c10_host_metric_keys demoCtx demoNode [demoVmRow] (by decide) (by decide)
